import Mathlib

/-!
Verification of the SEOAnalyzer repository (src/script.js) against its
natural-language specification.

The development shallowly embeds the two pure pipelines of the program:
the content-analyzer checks (checkTitle, checkKeywordDensity, checkLinks,
checkImages, word counting) and the audit-response projector
(processApiData with its performance / accessibility / seo sections).

Modelling conventions:
  * JavaScript numbers are modelled as exact rationals extended with the
    special values NaN / Infinity / -Infinity (type JSNum); `toFixed`
    rounding is modelled exactly (round half toward plus infinity on the
    exact rational, per the ECMAScript definition of toFixed).
  * Fallible JavaScript code (a thrown TypeError or SyntaxError) is
    modelled with `Except String`.
  * The `new RegExp(keyword, 'g')` pattern compilation and global match
    count is modelled for the regex fragment consisting of literal
    characters, the `.` wildcard and the greedy quantifiers `?`, `*`, `+`;
    patterns outside this fragment (groups, classes, alternation,
    anchors, escapes, lazy quantifiers) are mapped to a compilation
    failure and theorems never rely on such patterns.  A quantifier with
    nothing to repeat (for example the pattern `c++`) is a SyntaxError,
    exactly as in JavaScript.
  * DOM queries are abstracted: a document's hyperlinks are the list of
    optional `href` attributes of its `a` elements, its images the list
    of optional `alt` attributes of its `img` elements, exactly the data
    the source reads from them.
-/

namespace SEO

/-- Severity classification of a recommendation: the CSS class passed to
`addRecommendation` in the source (`good`, `bad`, `info`). -/
inductive Severity where
  | good : Severity
  | bad : Severity
  | info : Severity
  deriving DecidableEq

/-- A recommendation record: message text plus severity, as appended to the
results list by `addRecommendation`. -/
structure Recommendation where
  message : String
  severity : Severity
  deriving DecidableEq

/-! ## String helpers (JavaScript `includes`, substring search) -/

/-- Occurrence test for a character-list pattern inside a character list:
true when some suffix of `s` starts with `pat`. -/
def subOcc (pat : List Char) : List Char → Bool
  | [] => pat.isPrefixOf []
  | c :: rest => pat.isPrefixOf (c :: rest) || subOcc pat rest

/-- JavaScript `s.includes(pat)`: substring containment. -/
def containsSubstr (s pat : String) : Bool :=
  subOcc pat.toList s.toList

/-- Word count as computed at src/script.js line 47: strip to text, trim,
split on whitespace runs; empty text gives zero words. -/
def computeWordCount (textContent : String) : Nat :=
  if textContent.trim = "" then 0
  else (List.filter (fun w => w != "") (String.split textContent.trim Char.isWhitespace)).length

/-! ## Regex fragment for `new RegExp(keyword, 'g')` -/

/-- Atom of the modelled regex fragment: a literal character or the `.`
wildcard. -/
inductive RAtom where
  | ch : Char → RAtom
  | dot : RAtom
  deriving DecidableEq

/-- Quantifier attached to an atom: exactly one, `*`, `+` or `?` (all
greedy, as in the source which passes only the `g` flag). -/
inductive RQuant where
  | one : RQuant
  | star : RQuant
  | plus : RQuant
  | opt : RQuant
  deriving DecidableEq

/-- One quantified atom of a pattern. -/
structure RPiece where
  atom : RAtom
  quant : RQuant
  deriving DecidableEq

/-- Characters of the JavaScript regex grammar outside the modelled
fragment; a pattern containing one is not given a semantics here. -/
def unsupportedMeta (c : Char) : Bool :=
  c = '(' || c = ')' || c = '[' || c = ']' || c = '|' || c = '^' || c = '$' || c = '\\'

/-- Pattern scanner: turns the keyword string into a list of quantified
atoms.  A quantifier with no preceding plain atom (pattern start, or a
second quantifier in a row, as in `c++`) has nothing to repeat and is a
SyntaxError, modelled as `none`; characters outside the fragment also
give `none`. -/
def parseRegexAux : List Char → List RPiece → Option (List RPiece)
  | [], acc => some acc.reverse
  | c :: rest, acc =>
    if c = '*' || c = '+' || c = '?' then
      match acc with
      | ⟨a, RQuant.one⟩ :: acc2 =>
        parseRegexAux rest
          (⟨a, if c = '*' then RQuant.star else if c = '+' then RQuant.plus else RQuant.opt⟩ :: acc2)
      | _ => none
    else if unsupportedMeta c then none
    else if c = '\x7b' || c = '\x7d' then none
    else if c = '.' then parseRegexAux rest (⟨RAtom.dot, RQuant.one⟩ :: acc)
    else parseRegexAux rest (⟨RAtom.ch c, RQuant.one⟩ :: acc)

/-- Compile a keyword string into the modelled pattern, `none` meaning the
JavaScript `new RegExp` constructor throws (or the pattern is outside the
modelled fragment). -/
def parseRegex (s : String) : Option (List RPiece) :=
  parseRegexAux s.toList []

/-- Whether an atom matches a character (`.` matches anything but a line
terminator). -/
def matchAtom : RAtom → Char → Bool
  | RAtom.ch c, d => c = d
  | RAtom.dot, d => !(d = '\n' || d = '\r' || d = '\u2028' || d = '\u2029')

/-- Greedy match of a piece list against a prefix of `s`: returns the
number of characters consumed by the first match in backtracking order
(greedy quantifiers try the longer consumption first), or `none`. -/
def matchPieces : List RPiece → List Char → Option Nat
  | [], _ => some 0
  | ⟨_, RQuant.one⟩ :: _, [] => none
  | ⟨a, RQuant.one⟩ :: ps, c :: rest =>
    if matchAtom a c then Option.map (fun n => n + 1) (matchPieces ps rest) else none
  | ⟨_, RQuant.opt⟩ :: ps, [] => matchPieces ps []
  | ⟨a, RQuant.opt⟩ :: ps, c :: rest =>
    if matchAtom a c then
      match matchPieces ps rest with
      | some n => some (n + 1)
      | none => matchPieces ps (c :: rest)
    else matchPieces ps (c :: rest)
  | ⟨_, RQuant.star⟩ :: ps, [] => matchPieces ps []
  | ⟨a, RQuant.star⟩ :: ps, c :: rest =>
    if matchAtom a c then
      match matchPieces (⟨a, RQuant.star⟩ :: ps) rest with
      | some n => some (n + 1)
      | none => matchPieces ps (c :: rest)
    else matchPieces ps (c :: rest)
  | ⟨_, RQuant.plus⟩ :: _, [] => none
  | ⟨a, RQuant.plus⟩ :: ps, c :: rest =>
    if matchAtom a c then
      Option.map (fun n => n + 1) (matchPieces (⟨a, RQuant.star⟩ :: ps) rest)
    else none
  termination_by ps s => (s.length, ps.length)

/-- Number of non-overlapping global matches, as
`(text.match(re) || []).length`: scan left to right, skip past each
match, advance one position past an empty match. -/
def countMatchesFrom (re : List RPiece) : List Char → Nat
  | [] =>
    match matchPieces re [] with
    | some _ => 1
    | none => 0
  | c :: rest =>
    match matchPieces re (c :: rest) with
    | some 0 => 1 + countMatchesFrom re rest
    | some (n + 1) => 1 + countMatchesFrom re (List.drop n rest)
    | none => countMatchesFrom re rest
  termination_by s => s.length
  decreasing_by
    all_goals simp [List.length_drop]
    all_goals omega

/-- Global match count of a compiled pattern against a string. -/
def countMatches (re : List RPiece) (s : String) : Nat :=
  countMatchesFrom re s.toList

/-! ## JavaScript number model -/

/-- A JavaScript number: an exact rational, or one of the special values
NaN / Infinity / -Infinity. -/
inductive JSNum where
  | nan : JSNum
  | inf : JSNum
  | neginf : JSNum
  | num : ℚ → JSNum
  deriving DecidableEq

/-- Division `a / b` of two finite JavaScript numbers: division by zero
gives NaN for `0 / 0` and a signed infinity otherwise. -/
def jsDivN (a b : ℚ) : JSNum :=
  if b = 0 then
    if a = 0 then JSNum.nan else if 0 < a then JSNum.inf else JSNum.neginf
  else JSNum.num (a / b)

/-- Multiplication of a JavaScript number by a finite constant. -/
def jsMulC (x : JSNum) (c : ℚ) : JSNum :=
  match x with
  | JSNum.num q => JSNum.num (q * c)
  | JSNum.nan => JSNum.nan
  | JSNum.inf => if c = 0 then JSNum.nan else if 0 < c then JSNum.inf else JSNum.neginf
  | JSNum.neginf => if c = 0 then JSNum.nan else if 0 < c then JSNum.neginf else JSNum.inf

/-- Floor of a rational as an integer (the denominator of a `Rat` is
positive, so flooring integer division is exact). -/
def qFloor (q : ℚ) : Int :=
  Int.fdiv q.num (q.den : Int)

/-- Pad a digit string on the left with zeros up to the given width. -/
def padZeros (s : String) (w : Nat) : String :=
  String.mk (List.replicate (w - s.length) '0') ++ s

/-- `toFixed(digits)` on an exact rational: round half toward plus
infinity to `digits` decimal places and render. -/
def toFixedQ (digits : Nat) (q : ℚ) : String :=
  let m : Int := qFloor (q * (10 : ℚ) ^ digits + 1 / 2)
  let sgn := if m < 0 then "-" else ""
  let a : Nat := m.natAbs
  let p : Nat := 10 ^ digits
  if digits = 0 then sgn ++ toString a
  else sgn ++ toString (a / p) ++ "." ++ padZeros (toString (a % p)) digits

/-- The rational value denoted by the `toFixed(digits)` rendering of `q`
(what `Number` gives back when the rendered string is coerced). -/
def roundToQ (digits : Nat) (q : ℚ) : ℚ :=
  (qFloor (q * (10 : ℚ) ^ digits + 1 / 2) : ℚ) / (10 : ℚ) ^ digits

/-- `toFixed(digits)` on a JavaScript number: special values render as
their names. -/
def jsToFixed (digits : Nat) : JSNum → String
  | JSNum.nan => "NaN"
  | JSNum.inf => "Infinity"
  | JSNum.neginf => "-Infinity"
  | JSNum.num q => toFixedQ digits q

/-- Numeric value obtained by coercing the `toFixed(digits)` rendering of
a JavaScript number back to a number (`Number("NaN")` is NaN,
`Number("Infinity")` is Infinity). -/
def jsRoundTo (digits : Nat) : JSNum → JSNum
  | JSNum.num q => JSNum.num (roundToQ digits q)
  | x => x

/-- JavaScript `x > c` for a finite constant `c`: false when `x` is NaN. -/
def jsGt (x : JSNum) (c : ℚ) : Bool :=
  match x with
  | JSNum.nan => false
  | JSNum.inf => true
  | JSNum.neginf => false
  | JSNum.num q => decide (c < q)

/-- JavaScript `x < c` for a finite constant `c`: false when `x` is NaN. -/
def jsLt (x : JSNum) (c : ℚ) : Bool :=
  match x with
  | JSNum.nan => false
  | JSNum.inf => false
  | JSNum.neginf => true
  | JSNum.num q => decide (q < c)

/-! ## Content analyzer: CHECK 1 (page title), src/script.js lines 75-90 -/

/-- Message for a missing page title. -/
def titleMissingMsg : String :=
  "🔴 <strong>Page Title:</strong> You are missing a page title (H1). This is a critical SEO element."

/-- Message for a title length outside the 30-60 range, carrying the exact
character count. -/
def titleBadLenMsg (n : Nat) : String :=
  "🔴 <strong>Page Title:</strong> Your title is " ++ toString n ++ " characters. Aim for 30-60 characters."

/-- Message for a title length inside the 30-60 range. -/
def titleGoodLenMsg : String :=
  "🟢 <strong>Page Title:</strong> Your title length is good."

/-- Message for the focus keyword found in the title. -/
def titleKwGoodMsg : String :=
  "🟢 <strong>Page Title:</strong> Your focus keyword is in the title. Great!"

/-- Message for the focus keyword not found in the title. -/
def titleKwBadMsg : String :=
  "🔴 <strong>Page Title:</strong> Your focus keyword was not found in the title. Try to add it near the beginning."

/-- Keyword-presence messages of the title check (the second `if` chain of
`checkTitle`): one message when the keyword is set, none otherwise. -/
def titleKeywordRecs (title keyword : String) : List Recommendation :=
  if keyword != "" && containsSubstr title.toLower keyword then
    [⟨titleKwGoodMsg, Severity.good⟩]
  else if keyword != "" then [⟨titleKwBadMsg, Severity.bad⟩]
  else []

/-- CHECK 1 of the source: empty title is a terminal `bad`; otherwise a
length message followed by the keyword-presence messages. -/
def checkTitle (title keyword : String) : List Recommendation :=
  if title = "" then [⟨titleMissingMsg, Severity.bad⟩]
  else
    (if title.length < 30 ∨ 60 < title.length then
      [⟨titleBadLenMsg title.length, Severity.bad⟩]
    else [⟨titleGoodLenMsg, Severity.good⟩])
    ++ titleKeywordRecs title keyword

/-! ## Content analyzer: CHECK 4 (keyword density), src/script.js lines 120-136 -/

/-- Message when no focus keyword is configured. -/
def kdNoKeywordMsg : String :=
  "⚪ <strong>Focus Keyword:</strong> You have not set a focus keyword."

/-- Error raised when the keyword does not compile as a regex pattern. -/
def regexSyntaxErrorMsg : String :=
  "SyntaxError: Invalid regular expression"

/-- Density message for the too-high branch, around the rendered density. -/
def kdHighMsg (d : String) : String :=
  "🔴 <strong>Keyword Density:</strong> " ++ (d ++ "%. This is too high (keyword stuffing). Try to reduce it.")

/-- Density message for the too-low branch, around the rendered density. -/
def kdLowMsg (d : String) : String :=
  "⚪ <strong>Keyword Density:</strong> " ++ (d ++ "%. This is low. Try to include the keyword a few more times naturally.")

/-- Density message for the good branch, around the rendered density. -/
def kdGoodMsg (d : String) : String :=
  "🟢 <strong>Keyword Density:</strong> " ++ (d ++ "%. This is a good density.")

/-- CHECK 4 of the source: with no keyword a single informational message;
otherwise compile the keyword as a regex (which may throw), count global
matches against the lowercased text, compute
`(keywordCount / wordCount * 100).toFixed(2)` and classify by comparing
that rendered density against 2.5 and 0.5. -/
def checkKeywordDensity (textContent keyword : String) (wordCount : Nat) :
    Except String (List Recommendation) :=
  if keyword = "" then Except.ok [⟨kdNoKeywordMsg, Severity.info⟩]
  else
    match parseRegex keyword with
    | none => Except.error regexSyntaxErrorMsg
    | some re =>
      let keywordCount := countMatches re textContent.toLower
      let density := jsMulC (jsDivN (keywordCount : ℚ) (wordCount : ℚ)) 100
      let densityStr := jsToFixed 2 density
      let densityNum := jsRoundTo 2 density
      if jsGt densityNum (5 / 2) then Except.ok [⟨kdHighMsg densityStr, Severity.bad⟩]
      else if jsLt densityNum (1 / 2) then Except.ok [⟨kdLowMsg densityStr, Severity.info⟩]
      else Except.ok [⟨kdGoodMsg densityStr, Severity.good⟩]

/-- The raw (pre-rounding) density the source computes for a compiled
keyword against a text, with the word count derived from the same text as
in the analyze pipeline. -/
def densityOf (re : List RPiece) (textContent : String) : ℚ :=
  (countMatches re textContent.toLower : ℚ) / (computeWordCount textContent : ℚ) * 100

/-! ## Content analyzer: CHECK 7 (links), src/script.js lines 173-200 -/

/-- Message when no outbound link is present. -/
def linksNoExternalMsg : String :=
  "⚪ <strong>Outbound Links:</strong> You have no outbound links. Try linking to other high-authority websites."

/-- Message carrying the outbound link count. -/
def linksExternalGoodMsg (n : Nat) : String :=
  "🟢 <strong>Outbound Links:</strong> You have " ++ toString n ++ " outbound link(s)."

/-- Message when no internal link is present. -/
def linksNoInternalMsg : String :=
  "🔴 <strong>Internal Links:</strong> You have no internal links. Link to other pages on your own site."

/-- Message carrying the internal link count. -/
def linksInternalGoodMsg (n : Nat) : String :=
  "🟢 <strong>Internal Links:</strong> You have " ++ toString n ++ " internal link(s)."

/-- Whether an `href` attribute (absent attribute as `none`) counts as an
external link: truthy and starting with `http://` or `https://`. -/
def isExternalHref : Option String → Bool
  | none => false
  | some href => href != "" && (href.startsWith ("http://") || href.startsWith ("https://"))

/-- Whether an `href` attribute counts as an internal link: truthy, not
external, and starting with `/` or `#`. -/
def isInternalHref : Option String → Bool
  | none => false
  | some href =>
    href != "" && !(href.startsWith ("http://") || href.startsWith ("https://"))
      && (href.startsWith ("/") || href.startsWith ("#"))

/-- CHECK 7 of the source: count external and internal links over the
documents hyperlink `href` attributes and always emit one message for
each of the two counts. -/
def checkLinks (links : List (Option String)) : List Recommendation :=
  let externalLinks := List.countP isExternalHref links
  let internalLinks := List.countP isInternalHref links
  (if externalLinks = 0 then [⟨linksNoExternalMsg, Severity.info⟩]
  else [⟨linksExternalGoodMsg externalLinks, Severity.good⟩])
  ++ (if internalLinks = 0 then [⟨linksNoInternalMsg, Severity.bad⟩]
  else [⟨linksInternalGoodMsg internalLinks, Severity.good⟩])

/-! ## Content analyzer: CHECK 8 (image alt tags), src/script.js lines 203-223 -/

/-- Message when the content has no images. -/
def imagesNoneMsg : String :=
  "⚪ <strong>Images:</strong> Your content doesn\x27t seem to have any images. Consider adding some."

/-- Message carrying the count of images with a missing alt attribute. -/
def imagesMissingAltMsg (n : Nat) : String :=
  "🔴 <strong>Image SEO:</strong> You have " ++ toString n ++ " image(s) missing an \x27alt\x27 tag. Add descriptive alt tags to all images."

/-- Message carrying the total image count when all have alt text. -/
def imagesGoodMsg (n : Nat) : String :=
  "🟢 <strong>Image SEO:</strong> All " ++ toString n ++ " image(s) have alt tags. Well done!"

/-- Whether an image's `alt` attribute (absent as `none`) counts as
missing: absent, empty, or trimming to empty. -/
def altMissing : Option String → Bool
  | none => true
  | some alt => alt == "" || alt.trim == ""

/-- CHECK 8 of the source: no images is a single informational message;
otherwise count images with a missing alt attribute and emit one `bad`
with that count, or one `good` with the total count. -/
def checkImages (images : List (Option String)) : List Recommendation :=
  if images.length = 0 then [⟨imagesNoneMsg, Severity.info⟩]
  else
    let missingAltTags := List.countP altMissing images
    if 0 < missingAltTags then [⟨imagesMissingAltMsg missingAltTags, Severity.bad⟩]
    else [⟨imagesGoodMsg images.length, Severity.good⟩]

/-! ## Audit response projector, src/script.js lines 286-377

The payload is modelled as the JSON-ish optional-field structure the
source reads: missing object fields are `none`.  A JavaScript property
read on `undefined` throws a TypeError, modelled as `Except.error`. -/

/-- A lighthouse category: its 0..1 score. -/
structure Category where
  score : ℚ
  deriving DecidableEq

/-- The first item of the metrics audit's details: the three Core Web
Vitals values the source reads from it. -/
structure MetricsItem where
  largestContentfulPaint : ℚ
  cumulativeLayoutShift : ℚ
  totalBlockingTime : ℚ
  deriving DecidableEq

/-- The `details` object of an audit, with an optional `items` array. -/
structure Details where
  items : Option (List MetricsItem)
  deriving DecidableEq

/-- A named audit: optional numeric score and optional details. -/
structure Audit where
  score : Option ℚ
  details : Option Details
  deriving DecidableEq

/-- The `lighthouseResult` object: its `categories` and `audits` mappings,
either possibly absent. -/
structure LighthouseResult where
  categories : Option (List (String × Category))
  audits : Option (List (String × Audit))
  deriving DecidableEq

/-- The API response payload handed to `processApiData`. -/
structure ApiData where
  lighthouseResult : Option LighthouseResult
  deriving DecidableEq

/-- An entry of the projector's ordered output: a recommendation or a
score card (title plus 0-100 score). -/
inductive Output where
  | recOut : Recommendation → Output
  | scoreCard : String → ℚ → Output
  deriving DecidableEq

/-- The TypeError thrown by a property read on `undefined`. -/
def tyErrMsg : String :=
  "TypeError: Cannot read properties of undefined"

/-- The source's `getCategory` helper,
`(id) => lighthouseResult.categories[id]`: throws when `categories` is
absent, otherwise an optional category. -/
def getCategory (cats : Option (List (String × Category))) (id : String) :
    Except String (Option Category) :=
  match cats with
  | none => Except.error tyErrMsg
  | some l => Except.ok (List.lookup id l)

/-- The `audits[key]` lookup: throws when `audits` is absent. -/
def auditLookup (audits : Option (List (String × Audit))) (key : String) :
    Except String (Option Audit) :=
  match audits with
  | none => Except.error tyErrMsg
  | some al => Except.ok (List.lookup key al)

/-- The guarded metrics extraction
`audits['metrics'] && audits['metrics'].details && audits['metrics'].details.items && audits['metrics'].details.items[0]`:
throws when `audits` itself is absent, otherwise an optional first item. -/
def metricsLookup (audits : Option (List (String × Audit))) :
    Except String (Option MetricsItem) :=
  match audits with
  | none => Except.error tyErrMsg
  | some al =>
    Except.ok (do
      let a ← List.lookup ("metrics") al
      let d ← a.details
      let its ← d.items
      its.head?)

/-- Missing-performance message. -/
def perfMissingMsg : String :=
  "🔴 **Performance Data Missing:** Could not retrieve Core Web Vitals data for this URL."

/-- Fixed Core Web Vitals header line. -/
def cwvHeaderMsg : String :=
  "🟢 **Core Web Vitals Check**"

/-- LCP message around its rating and rendered seconds value. -/
def lcpMsg (rating t : String) : String :=
  ("⚪ **LCP:** " ++ rating ++ " (") ++ ((t ++ "s") ++ "). Aim for < 2.5s.")

/-- CLS message around its rating and rendered value. -/
def clsMsg (rating v : String) : String :=
  ("⚪ **CLS:** " ++ rating ++ " (") ++ (v ++ "). Aim for < 0.1.")

/-- TBT message around its rating and rendered milliseconds value. -/
def tbtMsg (rating v : String) : String :=
  ("⚪ **TBT (Proxy for INP):** " ++ rating ++ " (") ++ ((v ++ "ms") ++ "). Aim for < 200ms.")

/-- The three Core Web Vitals recommendations emitted when the metrics
item is present (none otherwise), with the source's thresholds and
`toFixed` renderings. -/
def metricRecs : Option MetricsItem → List Output
  | none => []
  | some m =>
    let lcp := m.largestContentfulPaint
    let lcpRating := if lcp ≤ 2500 then "Good" else if lcp ≤ 4000 then "Needs Improvement" else "Poor"
    let lcpType := if lcp ≤ 2500 then Severity.good else if lcp ≤ 4000 then Severity.info else Severity.bad
    let cls := m.cumulativeLayoutShift
    let clsRating := if cls ≤ 0.1 then "Good" else if cls ≤ 0.25 then "Needs Improvement" else "Poor"
    let clsType := if cls ≤ 0.1 then Severity.good else if cls ≤ 0.25 then Severity.info else Severity.bad
    let tbt := m.totalBlockingTime
    let tbtRating := if tbt ≤ 200 then "Good (Low Blocking Time)" else "Poor (High Blocking Time)"
    let tbtType := if tbt ≤ 200 then Severity.good else Severity.bad
    [Output.recOut ⟨lcpMsg lcpRating (toFixedQ 2 (lcp / 1000)), lcpType⟩,
      Output.recOut ⟨clsMsg clsRating (toFixedQ 3 cls), clsType⟩,
      Output.recOut ⟨tbtMsg tbtRating (toFixedQ 0 tbt), tbtType⟩]

/-- Section 1 of `processApiData` (Core Web Vitals and performance):
missing category gives one dedicated `bad` message and skips the
sub-checks; otherwise a score card, the header line, and the metric
messages when the metrics item exists. -/
def perfSection (cats : Option (List (String × Category)))
    (audits : Option (List (String × Audit))) : Except String (List Output) := do
  let c ← getCategory cats ("performance")
  match c with
  | none => pure [Output.recOut ⟨perfMissingMsg, Severity.bad⟩]
  | some pc => do
    let metrics ← metricsLookup audits
    pure ([Output.scoreCard ("Performance Score") (pc.score * 100),
      Output.recOut ⟨cwvHeaderMsg, Severity.good⟩] ++ metricRecs metrics)

/-- Low-accessibility message. -/
def accLowMsg : String :=
  "🔴 **Accessibility:** Low score! Check for issues like color contrast or form labels."

/-- Good-accessibility message. -/
def accGoodMsg : String :=
  "🟢 **Accessibility:** Excellent score!"

/-- Section 2 of `processApiData` (accessibility): a missing category is
silently skipped (no message, no card); otherwise a score card and one
threshold message. -/
def accSection (cats : Option (List (String × Category))) : Except String (List Output) := do
  let c ← getCategory cats ("accessibility")
  match c with
  | none => pure []
  | some ac =>
    let accessibilityScore := ac.score * 100
    pure [Output.scoreCard ("Accessibility Score") accessibilityScore,
      Output.recOut (if accessibilityScore < 90 then ⟨accLowMsg, Severity.bad⟩
        else ⟨accGoodMsg, Severity.good⟩)]

/-- Missing-SEO message. -/
def seoMissingMsg : String :=
  "🔴 **SEO Audit Missing:** Could not retrieve full SEO audit for this URL."

/-- Bad meta-description audit message. -/
def mdBadMsg : String :=
  "🔴 **Meta Description:** Page is missing one, or it is too short."

/-- Good meta-description audit message. -/
def mdGoodMsg : String :=
  "🟢 **Meta Description:** Page has a suitable meta description."

/-- Bad image-alt audit message. -/
def iaBadMsg : String :=
  "🔴 **Image SEO:** Some images are missing an `alt` tag."

/-- Good image-alt audit message. -/
def iaGoodMsg : String :=
  "🟢 **Image SEO:** All images have alt tags."

/-- Bad is-crawlable audit message (blocked from indexing). -/
def crBadMsg : String :=
  "🔴 **Indexing:** The page may be blocked from indexing. **Fix this immediately.**"

/-- Good is-crawlable audit message. -/
def crGoodMsg : String :=
  "🟢 **Indexing:** The page is not blocked from indexing."

/-- Bad viewport audit message. -/
def vpBadMsg : String :=
  "🔴 **Mobile Viewport:** Missing `<meta name=\"viewport\">` tag. **The page is not mobile-friendly.**"

/-- Good viewport audit message. -/
def vpGoodMsg : String :=
  "🟢 **Mobile Viewport:** Page uses a mobile-friendly viewport."

/-- JavaScript `audit.score === 0`: false when the score is absent. -/
def scoreEq0 (a : Audit) : Bool :=
  match a.score with
  | some q => q == 0
  | none => false

/-- JavaScript `audit.score < 1`: false when the score is absent
(`undefined < 1` is a NaN comparison). -/
def scoreLt1 (a : Audit) : Bool :=
  match a.score with
  | some q => decide (q < 1)
  | none => false

/-- Meta-description audit messages: absent audit emits nothing, present
audit is `bad` on `score === 0` and `good` otherwise. -/
def mdRecs : Option Audit → List Output
  | none => []
  | some a => [Output.recOut (if scoreEq0 a then ⟨mdBadMsg, Severity.bad⟩ else ⟨mdGoodMsg, Severity.good⟩)]

/-- Image-alt audit messages: absent audit emits nothing, present audit is
`bad` on `score < 1` and `good` otherwise. -/
def iaRecs : Option Audit → List Output
  | none => []
  | some a => [Output.recOut (if scoreLt1 a then ⟨iaBadMsg, Severity.bad⟩ else ⟨iaGoodMsg, Severity.good⟩)]

/-- Is-crawlable audit messages: absent audit emits nothing, present audit
is `bad` on `score < 1` and `good` otherwise. -/
def crRecs : Option Audit → List Output
  | none => []
  | some a => [Output.recOut (if scoreLt1 a then ⟨crBadMsg, Severity.bad⟩ else ⟨crGoodMsg, Severity.good⟩)]

/-- Viewport audit messages: absent audit emits nothing, present audit is
`bad` on `score === 0` and `good` otherwise. -/
def vpRecs : Option Audit → List Output
  | none => []
  | some a => [Output.recOut (if scoreEq0 a then ⟨vpBadMsg, Severity.bad⟩ else ⟨vpGoodMsg, Severity.good⟩)]

/-- Section 3 of `processApiData` (SEO): missing category gives one
dedicated `bad` message and skips the sub-checks; otherwise a score card
followed by the four independent audit checks. -/
def seoSection (cats : Option (List (String × Category)))
    (audits : Option (List (String × Audit))) : Except String (List Output) := do
  let c ← getCategory cats ("seo")
  match c with
  | none => pure [Output.recOut ⟨seoMissingMsg, Severity.bad⟩]
  | some sc => do
    let a1 ← auditLookup audits ("meta-description")
    let a2 ← auditLookup audits ("image-alt")
    let a3 ← auditLookup audits ("is-crawlable")
    let a4 ← auditLookup audits ("viewport")
    pure ([Output.scoreCard ("Google SEO Score") (sc.score * 100)]
      ++ mdRecs a1 ++ iaRecs a2 ++ crRecs a3 ++ vpRecs a4)

/-- The projector `processApiData`: reading `.audits` (and, inside
`getCategory`, `.categories[id]`) off an absent `lighthouseResult` throws;
otherwise the three sections run in order and their outputs concatenate. -/
def processApiData (data : ApiData) : Except String (List Output) :=
  match data.lighthouseResult with
  | none => Except.error tyErrMsg
  | some lhr => do
    let p ← perfSection lhr.categories lhr.audits
    let a ← accSection lhr.categories
    let s ← seoSection lhr.categories lhr.audits
    pure (p ++ a ++ s)

/-! ## Helper lemmas about substring containment -/

/-- A list is a prefix of itself followed by anything. -/
theorem isPrefixOf_append_self (p y : List Char) : p.isPrefixOf (p ++ y) = true := by
  induction p with
  | nil => simp
  | cons c cs ih => simp [List.isPrefixOf, ih]

/-- A prefix occurs as a substring. -/
theorem subOcc_of_isPrefixOf (p t : List Char) (h : p.isPrefixOf t = true) :
    subOcc p t = true := by
  cases t with
  | nil => simpa [subOcc] using h
  | cons c r => simp [subOcc, h]

/-- Substring occurrence is preserved by prepending. -/
theorem subOcc_append_left (p s t : List Char) (h : subOcc p t = true) :
    subOcc p (s ++ t) = true := by
  induction s with
  | nil => simpa using h
  | cons c r ih => simp [subOcc, ih]

/-- A string built around a middle part contains that middle part. -/
theorem containsSubstr_sandwich (a b c : String) : containsSubstr (a ++ (b ++ c)) b = true := by
  have h : (a ++ (b ++ c)).toList = a.toList ++ (b.toList ++ c.toList) := rfl
  unfold containsSubstr
  rw [h]
  exact subOcc_append_left _ _ _ (subOcc_of_isPrefixOf _ _ (isPrefixOf_append_self _ _))

/-- The high-density message contains the rendered density. -/
theorem kdHighMsg_contains (d : String) : containsSubstr (kdHighMsg d) d = true :=
  containsSubstr_sandwich _ _ "%. This is too high (keyword stuffing). Try to reduce it."

/-- The low-density message contains the rendered density. -/
theorem kdLowMsg_contains (d : String) : containsSubstr (kdLowMsg d) d = true :=
  containsSubstr_sandwich _ _ "%. This is low. Try to include the keyword a few more times naturally."

/-- The good-density message contains the rendered density. -/
theorem kdGoodMsg_contains (d : String) : containsSubstr (kdGoodMsg d) d = true :=
  containsSubstr_sandwich _ _ "%. This is a good density."

/-- The LCP message contains the rendered seconds value. -/
theorem lcpMsg_contains (r t : String) : containsSubstr (lcpMsg r t) (t ++ "s") = true :=
  containsSubstr_sandwich _ _ "). Aim for < 2.5s."

/-- The CLS message contains the rendered value. -/
theorem clsMsg_contains (r v : String) : containsSubstr (clsMsg r v) v = true :=
  containsSubstr_sandwich _ _ "). Aim for < 0.1."

/-- The TBT message contains the rendered milliseconds value. -/
theorem tbtMsg_contains (r v : String) : containsSubstr (tbtMsg r v) (v ++ "ms") = true :=
  containsSubstr_sandwich _ _ "). Aim for < 200ms."

/-! ## Claims -/

/-- Claim C1 states that the projection completes without raising on every
payload shape, every field read being guarded by a presence check.  The
code contradicts this: `processApiData` dereferences
`lighthouseResult.audits` and `lighthouseResult.categories[id]` without a
presence check, so a payload with no `lighthouseResult` (and likewise a
`lighthouseResult` with no `categories` mapping) makes the projection
throw a TypeError instead of completing. -/
theorem claim_C1 :
    processApiData ⟨none⟩ = Except.error tyErrMsg
    ∧ processApiData ⟨some ⟨none, some []⟩⟩ = Except.error tyErrMsg
    ∧ processApiData ⟨some ⟨some [("seo", ⟨1⟩)], none⟩⟩ = Except.error tyErrMsg := by
  refine ⟨rfl, ?_, ?_⟩ <;> with_unfolding_all rfl

/-- Claim C3: there exists a keyword containing regex metacharacters (for
example `c++`) on which the keyword density check raises an exception,
because the keyword string is compiled as a regex pattern without
escaping: `c++` has a quantifier with nothing to repeat and compilation
throws a SyntaxError. -/
theorem claim_C3 :
    ("c++" : String) ≠ ""
    ∧ '+' ∈ ("c++" : String).toList
    ∧ checkKeywordDensity ("the cat sat") ("c++") (computeWordCount ("the cat sat"))
      = Except.error regexSyntaxErrorMsg := by
  refine ⟨by decide, by decide, ?_⟩
  with_unfolding_all rfl

/-- Claim C4: an empty title yields exactly one bad recommendation and no
further title messages; a non-empty title yields good if its length is in
[30,60] and bad with the exact character count otherwise; independently,
if the keyword is set a second message is emitted, good when the
lower-cased title contains the keyword and bad when it does not, and no
keyword message is emitted when the keyword is unset. -/
theorem claim_C4 (title keyword : String) :
    (title = "" → checkTitle title keyword = [⟨titleMissingMsg, Severity.bad⟩])
    ∧ (title ≠ "" → 30 ≤ title.length → title.length ≤ 60 →
      checkTitle title keyword = ⟨titleGoodLenMsg, Severity.good⟩ :: titleKeywordRecs title keyword)
    ∧ (title ≠ "" → (title.length < 30 ∨ 60 < title.length) →
      checkTitle title keyword
        = ⟨titleBadLenMsg title.length, Severity.bad⟩ :: titleKeywordRecs title keyword)
    ∧ (keyword = "" → titleKeywordRecs title keyword = [])
    ∧ (keyword ≠ "" → containsSubstr title.toLower keyword = true →
      titleKeywordRecs title keyword = [⟨titleKwGoodMsg, Severity.good⟩])
    ∧ (keyword ≠ "" → containsSubstr title.toLower keyword = false →
      titleKeywordRecs title keyword = [⟨titleKwBadMsg, Severity.bad⟩]) := by
  refine ⟨?_, ?_, ?_, ?_, ?_, ?_⟩
  · intro h
    simp [checkTitle, h]
  · intro h h1 h2
    have hlen : ¬(title.length < 30 ∨ 60 < title.length) := by omega
    simp [checkTitle, h, hlen]
  · intro h hlen
    simp [checkTitle, h, hlen]
  · intro h
    simp [titleKeywordRecs, h]
  · intro h hc
    simp [titleKeywordRecs, h, hc]
  · intro h hc
    simp [titleKeywordRecs, h, hc]

/-- Witness for claim C4 at a concrete input: a 36-character title
containing the keyword gets the good length message followed by the good
keyword-presence message. -/
theorem claim_C4_witness :
    checkTitle ("The Complete Guide to Search Engines") ("search")
      = [⟨titleGoodLenMsg, Severity.good⟩, ⟨titleKwGoodMsg, Severity.good⟩] := by
  have h := claim_C4 ("The Complete Guide to Search Engines") ("search")
  have h1 := h.2.1 (by decide) (by decide) (by decide)
  have h2 := h.2.2.2.2.1 (by decide) (by with_unfolding_all rfl)
  rw [h1, h2]

/-- Claim C5: the projector treats absent categories asymmetrically — an
absent performance category yields exactly one bad performance-missing
recommendation, an absent seo category yields exactly one bad SEO-missing
recommendation, while an absent accessibility category yields nothing at
all; in every case the absent category's sub-checks are skipped, and the
projector's output is the concatenation of the three sections. -/
theorem claim_C5 (cats : List (String × Category)) (audits : Option (List (String × Audit))) :
    (List.lookup ("performance") cats = none →
      perfSection (some cats) audits = Except.ok [Output.recOut ⟨perfMissingMsg, Severity.bad⟩])
    ∧ (List.lookup ("accessibility") cats = none →
      accSection (some cats) = Except.ok [])
    ∧ (List.lookup ("seo") cats = none →
      seoSection (some cats) audits = Except.ok [Output.recOut ⟨seoMissingMsg, Severity.bad⟩])
    ∧ (∀ p a s, perfSection (some cats) audits = Except.ok p →
      accSection (some cats) = Except.ok a →
      seoSection (some cats) audits = Except.ok s →
      processApiData ⟨some ⟨some cats, audits⟩⟩ = Except.ok (p ++ a ++ s)) := by
  refine ⟨?_, ?_, ?_, ?_⟩
  · intro h
    have hg : getCategory (some cats) ("performance") = Except.ok none := by
      simp [getCategory, h]
    unfold perfSection
    rw [hg]
    rfl
  · intro h
    have hg : getCategory (some cats) ("accessibility") = Except.ok none := by
      simp [getCategory, h]
    unfold accSection
    rw [hg]
    rfl
  · intro h
    have hg : getCategory (some cats) ("seo") = Except.ok none := by
      simp [getCategory, h]
    unfold seoSection
    rw [hg]
    rfl
  · intro p a s hp ha hs
    have hd : processApiData ⟨some ⟨some cats, audits⟩⟩ = (do
      let p ← perfSection (some cats) audits
      let a ← accSection (some cats)
      let s ← seoSection (some cats) audits
      pure (p ++ a ++ s)) := rfl
    rw [hd, hp, ha, hs]
    rfl

/-- Witness for claim C5 at a concrete input: with all three categories
absent the projector output is exactly the performance-missing and
SEO-missing messages, with nothing for accessibility. -/
theorem claim_C5_witness :
    processApiData ⟨some ⟨some [], some []⟩⟩
      = Except.ok [Output.recOut ⟨perfMissingMsg, Severity.bad⟩,
        Output.recOut ⟨seoMissingMsg, Severity.bad⟩] := by
  have h := claim_C5 [] (some [])
  have hp := h.1 (by rfl)
  have ha := h.2.1 (by rfl)
  have hs := h.2.2.1 (by rfl)
  have he := h.2.2.2 _ _ _ hp ha hs
  simpa using he

/-- Counterexample to claim C2 as stated: the keyword `c++` is set and the
word count is positive, yet the density check raises a SyntaxError while
compiling the keyword as a regex, so it does not emit exactly one
recommendation. -/
theorem claim_C2_counterexample :
    ("c++" : String) ≠ ""
    ∧ computeWordCount ("one two three") = 3
    ∧ checkKeywordDensity ("one two three") ("c++") (computeWordCount ("one two three"))
      = Except.error regexSyntaxErrorMsg := by
  refine ⟨by decide, ?_, ?_⟩ <;> with_unfolding_all rfl

/-- Claim C2 (amended): for every input whose keyword is set and compiles
as a regex pattern and whose word count is positive, the density check
emits exactly one recommendation classified by the density
`keywordCount / wordCount * 100` rounded to two decimal places — bad
above 2.5, info below 0.5, good otherwise — with the rendered density in
the message; and with the keyword unset it emits exactly one info
recommendation and nothing else. -/
theorem claim_C2 (textContent keyword : String) (re : List RPiece) :
    (keyword = "" →
      checkKeywordDensity textContent keyword (computeWordCount textContent)
        = Except.ok [⟨kdNoKeywordMsg, Severity.info⟩])
    ∧ (keyword ≠ "" → parseRegex keyword = some re → 0 < computeWordCount textContent →
      ∃ msg sev,
        checkKeywordDensity textContent keyword (computeWordCount textContent)
          = Except.ok [⟨msg, sev⟩]
        ∧ containsSubstr msg (toFixedQ 2 (densityOf re textContent)) = true
        ∧ sev = (if 5 / 2 < roundToQ 2 (densityOf re textContent) then Severity.bad
          else if roundToQ 2 (densityOf re textContent) < 1 / 2 then Severity.info
          else Severity.good)) := by
  constructor
  · intro h
    simp [checkKeywordDensity, h]
  · intro hk hp hw
    have hq : ((computeWordCount textContent : ℚ)) ≠ 0 := by
      exact_mod_cast Nat.pos_iff_ne_zero.mp hw
    simp only [checkKeywordDensity, if_neg hk, hp, densityOf, jsDivN, if_neg hq, jsMulC,
      jsRoundTo, jsGt, jsLt, jsToFixed, decide_eq_true_eq]
    split_ifs with h1 h2
    · exact ⟨_, _, rfl, kdHighMsg_contains _, rfl⟩
    · exact ⟨_, _, rfl, kdLowMsg_contains _, rfl⟩
    · exact ⟨_, _, rfl, kdGoodMsg_contains _, rfl⟩

/-- Witness for claim C2 at a concrete input: keyword `seo` occurs twice
in a six-word text, density 33.33 is above 2.5, so the single
recommendation is bad. -/
theorem claim_C2_witness :
    ("seo" : String) ≠ ""
    ∧ 0 < computeWordCount ("seo tips and seo tricks here")
    ∧ ∃ msg sev,
      checkKeywordDensity ("seo tips and seo tricks here") ("seo")
        (computeWordCount ("seo tips and seo tricks here")) = Except.ok [⟨msg, sev⟩]
      ∧ containsSubstr msg (toFixedQ 2 (densityOf
          [⟨RAtom.ch 's', RQuant.one⟩, ⟨RAtom.ch 'e', RQuant.one⟩, ⟨RAtom.ch 'o', RQuant.one⟩]
          ("seo tips and seo tricks here"))) = true
      ∧ sev = (if 5 / 2 < roundToQ 2 (densityOf
            [⟨RAtom.ch 's', RQuant.one⟩, ⟨RAtom.ch 'e', RQuant.one⟩, ⟨RAtom.ch 'o', RQuant.one⟩]
            ("seo tips and seo tricks here")) then Severity.bad
          else if roundToQ 2 (densityOf
            [⟨RAtom.ch 's', RQuant.one⟩, ⟨RAtom.ch 'e', RQuant.one⟩, ⟨RAtom.ch 'o', RQuant.one⟩]
            ("seo tips and seo tricks here")) < 1 / 2 then Severity.info
          else Severity.good) := by
  refine ⟨by decide, by with_unfolding_all decide, ?_⟩
  exact (claim_C2 ("seo tips and seo tricks here") ("seo")
    [⟨RAtom.ch 's', RQuant.one⟩, ⟨RAtom.ch 'e', RQuant.one⟩, ⟨RAtom.ch 'o', RQuant.one⟩]).2
    (by decide) (by with_unfolding_all rfl) (by with_unfolding_all decide)

/-- Counterexample to claim C10 as stated: with the keyword `.` set and a
whitespace-only text (word count zero), the match count is one, the
division yields Infinity rather than NaN, the threshold comparison
against 2.5 is true, and the single recommendation is bad with an
`Infinity%` density value, not good with `NaN%`. -/
theorem claim_C10_counterexample :
    ("." : String) ≠ ""
    ∧ computeWordCount (" ") = 0
    ∧ checkKeywordDensity (" ") (".") (computeWordCount (" "))
      = Except.ok [⟨kdHighMsg ("Infinity"), Severity.bad⟩] := by
  refine ⟨by decide, ?_, ?_⟩ <;> with_unfolding_all rfl

/-- Claim C10 (amended): for every input with the keyword set and
compiling as a regex, word count zero and keyword match count zero (as
holds for any literally-matched keyword, the text being whitespace-only),
the density check does not raise: the division yields NaN, the two-decimal
formatting produces `NaN`, both threshold comparisons are false, and
exactly one good recommendation with a `NaN` density value is emitted. -/
theorem claim_C10 (textContent keyword : String) (re : List RPiece)
    (hk : keyword ≠ "") (hp : parseRegex keyword = some re)
    (hw : computeWordCount textContent = 0)
    (hc : countMatches re textContent.toLower = 0) :
    checkKeywordDensity textContent keyword (computeWordCount textContent)
      = Except.ok [⟨kdGoodMsg ("NaN"), Severity.good⟩]
    ∧ jsDivN 0 0 = JSNum.nan
    ∧ jsToFixed 2 JSNum.nan = "NaN"
    ∧ jsGt JSNum.nan (5 / 2) = false
    ∧ jsLt JSNum.nan (1 / 2) = false := by
  refine ⟨?_, rfl, rfl, rfl, rfl⟩
  simp [checkKeywordDensity, if_neg hk, hp, hw, hc, jsDivN, jsMulC, jsRoundTo, jsGt, jsLt,
    jsToFixed]

/-- Witness for claim C10 at a concrete input: keyword `x` over a
whitespace-only text gives the single good `NaN` recommendation. -/
theorem claim_C10_witness :
    checkKeywordDensity (" ") ("x") (computeWordCount (" "))
      = Except.ok [⟨kdGoodMsg ("NaN"), Severity.good⟩] :=
  (claim_C10 (" ") ("x") ([⟨RAtom.ch 'x', RQuant.one⟩]) (by decide)
    (by with_unfolding_all rfl) (by with_unfolding_all rfl) (by with_unfolding_all rfl)).1

/-- Counterexample to claim C6 as stated: at LCP 2000 ms the
classification is indeed good, but the rendered value is `2.00s`
(2000 / 1000 to two decimals), not the claimed `1.50s`. -/
theorem claim_C6_counterexample :
    perfSection (some [("performance", ⟨1⟩)])
      (some [("metrics", ⟨none, some ⟨some [⟨2000, 0.15, 250⟩]⟩⟩)])
      = Except.ok [Output.scoreCard ("Performance Score") 100,
        Output.recOut ⟨cwvHeaderMsg, Severity.good⟩,
        Output.recOut ⟨lcpMsg ("Good") ("2.00"), Severity.good⟩,
        Output.recOut ⟨clsMsg ("Needs Improvement") ("0.150"), Severity.info⟩,
        Output.recOut ⟨tbtMsg ("Poor (High Blocking Time)") ("250"), Severity.bad⟩]
    ∧ containsSubstr (lcpMsg ("Good") ("2.00")) ("1.50s") = false
    ∧ containsSubstr (lcpMsg ("Good") ("2.00")) ("2.00s") = true := by
  refine ⟨?_, ?_, ?_⟩ <;> with_unfolding_all rfl

/-- Claim C6 (amended): with the performance category and a populated
metrics audit present, the three Core Web Vitals are classified
independently — LCP good up to 2500 ms, info up to 4000 ms, else bad,
shown in seconds to two decimals; CLS good up to 0.1, info up to 0.25,
else bad, shown to three decimals; TBT good up to 200 ms else bad with no
info tier, shown as an integer millisecond count — so LCP 2000 gives good
`2.00s`, CLS 0.15 gives info `0.150`, TBT 250 gives bad `250ms`. -/
theorem claim_C6 (cats : List (String × Category)) (al : List (String × Audit))
    (pc : Category) (m : MetricsItem)
    (hc : List.lookup ("performance") cats = some pc)
    (hm : metricsLookup (some al) = Except.ok (some m)) :
    perfSection (some cats) (some al)
      = Except.ok ([Output.scoreCard ("Performance Score") (pc.score * 100),
        Output.recOut ⟨cwvHeaderMsg, Severity.good⟩] ++ metricRecs (some m))
    ∧ (∃ r2 r3 r4,
      metricRecs (some m) = [Output.recOut r2, Output.recOut r3, Output.recOut r4]
      ∧ r2.severity = (if m.largestContentfulPaint ≤ 2500 then Severity.good
        else if m.largestContentfulPaint ≤ 4000 then Severity.info else Severity.bad)
      ∧ containsSubstr r2.message (toFixedQ 2 (m.largestContentfulPaint / 1000) ++ "s") = true
      ∧ r3.severity = (if m.cumulativeLayoutShift ≤ 0.1 then Severity.good
        else if m.cumulativeLayoutShift ≤ 0.25 then Severity.info else Severity.bad)
      ∧ containsSubstr r3.message (toFixedQ 3 m.cumulativeLayoutShift) = true
      ∧ r4.severity = (if m.totalBlockingTime ≤ 200 then Severity.good else Severity.bad)
      ∧ containsSubstr r4.message (toFixedQ 0 m.totalBlockingTime ++ "ms") = true) := by
  constructor
  · have hg : getCategory (some cats) ("performance") = Except.ok (some pc) := by
      simp [getCategory, hc]
    unfold perfSection
    rw [hg, hm]
    rfl
  · exact ⟨_, _, _, rfl, rfl, lcpMsg_contains _ _, rfl, clsMsg_contains _ _, rfl,
      tbtMsg_contains _ _⟩

/-- Witness for claim C6 at the concrete metric values 2000 / 0.15 / 250:
the projector output carries a good `2.00s` LCP line, an info `0.150` CLS
line and a bad `250ms` TBT line. -/
theorem claim_C6_witness :
    perfSection (some [("performance", ⟨9 / 10⟩)])
      (some [("metrics", ⟨none, some ⟨some [⟨2000, 0.15, 250⟩]⟩⟩)])
      = Except.ok [Output.scoreCard ("Performance Score") ((9 : ℚ) / 10 * 100),
        Output.recOut ⟨cwvHeaderMsg, Severity.good⟩,
        Output.recOut ⟨lcpMsg ("Good") ("2.00"), Severity.good⟩,
        Output.recOut ⟨clsMsg ("Needs Improvement") ("0.150"), Severity.info⟩,
        Output.recOut ⟨tbtMsg ("Poor (High Blocking Time)") ("250"), Severity.bad⟩] := by
  have h := (claim_C6 [("performance", ⟨9 / 10⟩)]
    [("metrics", ⟨none, some ⟨some [⟨2000, 0.15, 250⟩]⟩⟩)]
    ⟨9 / 10⟩ ⟨2000, 0.15, 250⟩ (by rfl) (by rfl)).1
  rw [h]
  with_unfolding_all rfl

/-- Claim C7: with the seo category present, each of the four named audits
is evaluated only if its key exists in the audits mapping (absence yields
no message for it), and each present audit yields exactly one
recommendation with its own threshold — meta-description and viewport bad
exactly on score 0, image-alt and is-crawlable bad exactly on score below
1, good otherwise. -/
theorem claim_C7 (cats : List (String × Category)) (al : List (String × Audit))
    (sc : Category) (hc : List.lookup ("seo") cats = some sc) :
    seoSection (some cats) (some al)
      = Except.ok ([Output.scoreCard ("Google SEO Score") (sc.score * 100)]
        ++ mdRecs (List.lookup ("meta-description") al)
        ++ iaRecs (List.lookup ("image-alt") al)
        ++ crRecs (List.lookup ("is-crawlable") al)
        ++ vpRecs (List.lookup ("viewport") al))
    ∧ mdRecs none = [] ∧ iaRecs none = [] ∧ crRecs none = [] ∧ vpRecs none = []
    ∧ (∀ q d, mdRecs (some ⟨some q, d⟩)
      = [Output.recOut (if q = 0 then ⟨mdBadMsg, Severity.bad⟩ else ⟨mdGoodMsg, Severity.good⟩)])
    ∧ (∀ q d, iaRecs (some ⟨some q, d⟩)
      = [Output.recOut (if q < 1 then ⟨iaBadMsg, Severity.bad⟩ else ⟨iaGoodMsg, Severity.good⟩)])
    ∧ (∀ q d, crRecs (some ⟨some q, d⟩)
      = [Output.recOut (if q < 1 then ⟨crBadMsg, Severity.bad⟩ else ⟨crGoodMsg, Severity.good⟩)])
    ∧ (∀ q d, vpRecs (some ⟨some q, d⟩)
      = [Output.recOut (if q = 0 then ⟨vpBadMsg, Severity.bad⟩ else ⟨vpGoodMsg, Severity.good⟩)]) := by
  refine ⟨?_, rfl, rfl, rfl, rfl, ?_, ?_, ?_, ?_⟩
  · have hg : getCategory (some cats) ("seo") = Except.ok (some sc) := by
      simp [getCategory, hc]
    unfold seoSection
    rw [hg]
    rfl
  · intro q d
    by_cases h : q = 0 <;> simp [mdRecs, scoreEq0, h]
  · intro q d
    by_cases h : q < 1 <;> simp [iaRecs, scoreLt1, h]
  · intro q d
    by_cases h : q < 1 <;> simp [crRecs, scoreLt1, h]
  · intro q d
    by_cases h : q = 0 <;> simp [vpRecs, scoreEq0, h]

/-- Witness for claim C7 at a concrete input: the seo category present and
only the is-crawlable audit present with score 0 gives exactly the score
card and the bad blocked-from-indexing recommendation. -/
theorem claim_C7_witness :
    seoSection (some [("seo", ⟨1⟩)]) (some [("is-crawlable", ⟨some 0, none⟩)])
      = Except.ok [Output.scoreCard ("Google SEO Score") ((1 : ℚ) * 100),
        Output.recOut ⟨crBadMsg, Severity.bad⟩] := by
  have h := (claim_C7 [("seo", ⟨1⟩)] [("is-crawlable", ⟨some 0, none⟩)] ⟨1⟩ (by rfl)).1
  rw [h]
  with_unfolding_all rfl

/-- Claim C8: the links check partitions hyperlinks by target — starting
with `http://` or `https://` is external, starting with `/` or `#` is
internal, anything else counts as neither — and always emits exactly two
recommendations: info when the external count is zero, else good with the
count; and bad when the internal count is zero, else good with the count,
the two outcomes being independent. -/
theorem claim_C8 (links : List (Option String)) :
    (∃ r1 r2, checkLinks links = [r1, r2]
      ∧ (List.countP isExternalHref links = 0 → r1 = ⟨linksNoExternalMsg, Severity.info⟩)
      ∧ (0 < List.countP isExternalHref links →
        r1 = ⟨linksExternalGoodMsg (List.countP isExternalHref links), Severity.good⟩)
      ∧ (List.countP isInternalHref links = 0 → r2 = ⟨linksNoInternalMsg, Severity.bad⟩)
      ∧ (0 < List.countP isInternalHref links →
        r2 = ⟨linksInternalGoodMsg (List.countP isInternalHref links), Severity.good⟩))
    ∧ isExternalHref none = false
    ∧ isInternalHref none = false
    ∧ (∀ s, isExternalHref (some s)
      = (s.startsWith ("http://") || s.startsWith ("https://")))
    ∧ (∀ s, isInternalHref (some s)
      = (!(s.startsWith ("http://") || s.startsWith ("https://"))
        && (s.startsWith ("/") || s.startsWith ("#")))) := by
  refine ⟨?_, rfl, rfl, ?_, ?_⟩
  · refine ⟨(if List.countP isExternalHref links = 0 then ⟨linksNoExternalMsg, Severity.info⟩
      else ⟨linksExternalGoodMsg (List.countP isExternalHref links), Severity.good⟩),
      (if List.countP isInternalHref links = 0 then ⟨linksNoInternalMsg, Severity.bad⟩
      else ⟨linksInternalGoodMsg (List.countP isInternalHref links), Severity.good⟩),
      ?_, ?_, ?_, ?_, ?_⟩
    · by_cases h1 : List.countP isExternalHref links = 0 <;>
        by_cases h2 : List.countP isInternalHref links = 0 <;>
        simp [checkLinks, h1, h2]
    · intro h
      rw [if_pos h]
    · intro h
      rw [if_neg (by omega)]
    · intro h
      rw [if_pos h]
    · intro h
      rw [if_neg (by omega)]
  · intro s
    by_cases hs : s = ""
    · subst hs
      with_unfolding_all rfl
    · simp [isExternalHref, hs]
  · intro s
    by_cases hs : s = ""
    · subst hs
      with_unfolding_all rfl
    · have hb : (s != "") = true := by simpa [bne_iff_ne] using hs
      simp [isInternalHref, hb]

/-- Witness for claim C8 at a concrete input: one external, one internal,
one other-target link, one link with no target and one with an empty
target give the two good messages with count one each. -/
theorem claim_C8_witness :
    checkLinks [some "https://a.com", some "/about", some "x.html", none, some ""]
      = [⟨linksExternalGoodMsg 1, Severity.good⟩, ⟨linksInternalGoodMsg 1, Severity.good⟩] := by
  obtain ⟨r1, r2, he, h1, h2, h3, h4⟩ := (claim_C8
    [some "https://a.com", some "/about", some "x.html", none, some ""]).1
  have hc1 : List.countP isExternalHref
      [some "https://a.com", some "/about", some "x.html", none, some ""] = 1 := by
    with_unfolding_all rfl
  have hc2 : List.countP isInternalHref
      [some "https://a.com", some "/about", some "x.html", none, some ""] = 1 := by
    with_unfolding_all rfl
  rw [he, h2 (hc1 ▸ Nat.one_pos), h4 (hc2 ▸ Nat.one_pos), hc1, hc2]

/-- Claim C9: the images check emits exactly one info recommendation and
nothing else when there are zero images; otherwise it counts images whose
alt attribute is absent or trims to empty and emits exactly one
recommendation — bad with the missing count when positive, else good with
the total image count. -/
theorem claim_C9 (images : List (Option String)) :
    (images = [] → checkImages images = [⟨imagesNoneMsg, Severity.info⟩])
    ∧ (images ≠ [] → 0 < List.countP altMissing images →
      checkImages images = [⟨imagesMissingAltMsg (List.countP altMissing images), Severity.bad⟩])
    ∧ (images ≠ [] → List.countP altMissing images = 0 →
      checkImages images = [⟨imagesGoodMsg images.length, Severity.good⟩])
    ∧ altMissing none = true
    ∧ (∀ s, altMissing (some s) = (s.trim == "")) := by
  refine ⟨?_, ?_, ?_, rfl, ?_⟩
  · intro h
    subst h
    rfl
  · intro h hm
    have hl : ¬(images.length = 0) := by simp [List.length_eq_zero, h]
    simp [checkImages, hl, hm]
  · intro h hm
    have hl : ¬(images.length = 0) := by simp [List.length_eq_zero, h]
    simp [checkImages, hl, hm]
  · intro s
    by_cases hs : s = ""
    · subst hs
      with_unfolding_all rfl
    · simp [altMissing, hs]

/-- Witness for claim C9 at a concrete input: of two images one has a
whitespace-only alt attribute, so the single message is bad with missing
count one. -/
theorem claim_C9_witness :
    checkImages [some "a dog", some "  "] = [⟨imagesMissingAltMsg 1, Severity.bad⟩] := by
  have h := (claim_C9 [some "a dog", some "  "]).2.1 (by decide) (by with_unfolding_all decide)
  rw [h]
  with_unfolding_all rfl

end SEO
